import Mathlib

/-!
Shallow embedding of the CodeLogs social-blogging server (src/server.js,
src/setup_db.js and the browser-side recovery client
src/public/assets/javascript/recover.js).

Collections of the MongoDB document store are modelled as Lean lists of
document structures; each Express route handler becomes a pure function
from the request data and the current collection contents to a response
value and (for write handlers) the updated collection.  JavaScript falsy
checks on string fields (`!username`) are modelled as equality with the
empty string; `bcrypt.hash` is modelled by an abstract injective tagging
function, and MongoDB `$regex` substring matching with the `i` option is
modelled as case-insensitive substring containment (exact for patterns
without regex metacharacters, which is how every handler uses it).
Calendar dates handed to `new Date(...)` are modelled as year/month/day
triples, mirroring the `getFullYear`/`getMonth`/`getDate` reads in
`calculateAge` (month arithmetic only uses differences, so the 0-based
JavaScript month convention is immaterial).
-/

namespace CodeLogs

/-! ### String helpers -/

/-- Whitespace characters recognised by the JavaScript `\s` regex class
(restricted to the ASCII range used by the application). -/
def isWsChar (c : Char) : Bool :=
  c = ' ' || c = '\t' || c = '\n' || c = '\r' || c = '\x0b' || c = '\x0c'

/-- Lower-cased character list of a string, the basis of the
case-insensitive matching performed by `$regex ... $options: i`. -/
def lowerList (s : String) : List Char :=
  s.toList.map Char.toLower

/-- Bool-valued list prefix test. -/
def isPrefOf : List Char → List Char → Bool
  | [], _ => true
  | _ :: _, [] => false
  | a :: as, b :: bs => a = b && isPrefOf as bs

/-- Contiguous substring test: does `needle` occur inside `hay`? -/
def hasSub (needle : List Char) : List Char → Bool
  | [] => needle.isEmpty
  | c :: cs => isPrefOf needle (c :: cs) || hasSub needle cs

/-- Case-insensitive substring containment, the semantics of the
`{ field: { $regex: q, $options: i } }` filters built by the server. -/
def ciContains (hay needle : String) : Bool :=
  hasSub (lowerList needle) (lowerList hay)

/-- Case-insensitive string equality; the semantics of the anchored,
regex-escaped language filter `^...$` with option `i`. -/
def ciEq (a b : String) : Bool :=
  lowerList a = lowerList b

/-- Split a character list at a separator character; a list with `n`
separators yields `n + 1` groups (the semantics of `String.splitOn` for a
single-character separator). -/
def splitOnChar (sep : Char) : List Char → List (List Char)
  | [] => [[]]
  | c :: rest =>
    let r := splitOnChar sep rest
    if c = sep then [] :: r
    else
      match r with
      | [] => [[c]]
      | g :: gs => (c :: g) :: gs

/-- Strip leading and trailing whitespace; the semantics of the
JavaScript `.trim()` calls applied to query parameters. -/
def strTrim (s : String) : String :=
  String.mk (((s.toList.dropWhile isWsChar).reverse.dropWhile isWsChar).reverse)

/-- Characters allowed on either side of the `@` by the registration
email regex `^[^\s@]+@[^\s@]+\.[^\s@]+$`: anything but whitespace and `@`. -/
def emailChOk (c : Char) : Bool :=
  !(isWsChar c) && c ≠ '@'

/-- `isValidEmail` from server.js: the string must decompose as
`loc @ dom` with `loc` nonempty, and `dom` must contain a dot with a
nonempty part on each side; no whitespace or second `@` anywhere. -/
def isValidEmail (email : String) : Bool :=
  match splitOnChar '@' email.toList with
  | [locPart, domPart] =>
      !locPart.isEmpty && locPart.all emailChOk &&
      domPart.all emailChOk &&
      ((domPart.drop 1).dropLast).contains '.'
  | _ => false

/-- Decimal digit test (the `[0-9]` class of the phone regex). -/
def isDigitCh (c : Char) : Bool :=
  '0' ≤ c && c ≤ '9'

/-- The cleaning step of `isValidPhoneNumber`: strip whitespace, dashes
and parentheses (`replace(/[\s\-()]/g, )`). -/
def cleanPhone (p : String) : List Char :=
  p.toList.filter (fun c => !(isWsChar c || c = '-' || c = '(' || c = ')'))

/-- `isValidPhoneNumber` from server.js: after cleaning, a `+` followed by
a 1-4 digit country code and exactly 8 further digits, i.e. 9 to 12
digits in total. -/
def isValidPhoneNumber (p : String) : Bool :=
  match cleanPhone p with
  | '+' :: ds => ds.all isDigitCh && 9 ≤ ds.length && ds.length ≤ 12
  | _ => false

/-! ### Calendar dates and the age check -/

/-- A calendar date as read off a JavaScript `Date` via
`getFullYear`/`getMonth`/`getDate`. -/
structure Date where
  year : Nat
  month : Nat
  day : Nat
  deriving DecidableEq

/-- Gregorian leap-year rule. -/
def isLeapYear (y : Nat) : Bool :=
  (y % 4 = 0 && y % 100 ≠ 0) || y % 400 = 0

/-- Number of days in a month of a given year. -/
def daysInMonth (y m : Nat) : Nat :=
  if m = 2 then (if isLeapYear y then 29 else 28)
  else if m = 4 || m = 6 || m = 9 || m = 11 then 30
  else 31

/-- Validity of a calendar date. -/
def Date.valid (d : Date) : Bool :=
  1 ≤ d.month && d.month ≤ 12 && 1 ≤ d.day && d.day ≤ daysInMonth d.year d.month

/-- The calendar day after `d`. -/
def nextDay (d : Date) : Date :=
  if d.day < daysInMonth d.year d.month then ⟨d.year, d.month, d.day + 1⟩
  else if d.month < 12 then ⟨d.year, d.month + 1, 1⟩
  else ⟨d.year + 1, 1, 1⟩

/-- `calculateAge` from server.js: year difference, decremented when the
birthday has not yet occurred in the current year. -/
def calculateAge (dob today : Date) : Int :=
  let age : Int := (today.year : Int) - (dob.year : Int)
  let monthDiff : Int := (today.month : Int) - (dob.month : Int)
  if monthDiff < 0 ∨ (monthDiff = 0 ∧ (today.day : Int) < (dob.day : Int)) then age - 1
  else age

/-! ### Generic list operations shared by the handlers -/

/-- `deleteOne`: remove the first element satisfying `p` (MongoDB deletes a
single matching document). -/
def deleteFirst (p : α → Bool) : List α → List α
  | [] => []
  | x :: xs => if p x then xs else x :: deleteFirst p xs

/-- `updateOne`: rewrite the first element satisfying `p` with `g`. -/
def updateFirst (p : α → Bool) (g : α → α) : List α → List α
  | [] => []
  | x :: xs => if p x then g x :: xs else x :: updateFirst p g xs

/-- Insert `x` into a list that is sorted by `key` in descending order. -/
def insertDesc (key : α → Nat) (x : α) : List α → List α
  | [] => [x]
  | y :: ys => if key y < key x then x :: y :: ys else y :: insertDesc key x ys

/-- Sort a list by `key` in descending order; the semantics of the
`.sort({ createdAt: -1 })` cursor modifier. -/
def sortByDesc (key : α → Nat) : List α → List α
  | [] => []
  | x :: xs => insertDesc key x (sortByDesc key xs)

/-! ### Document model -/

/-- A document of the `users` collection (Credential Store). -/
structure UserDoc where
  id : Nat
  username : String
  email : String
  phone : String
  dob : Date
  password : String
  createdAt : Nat
  profileImage : Option String
  deriving DecidableEq

/-- A document of the `contents` collection (Content Repository). -/
structure ContentDoc where
  id : Nat
  title : String
  description : String
  code : String
  programmingLanguage : String
  author : String
  createdAt : Nat
  deriving DecidableEq

/-- A document of the `follows` collection (Social Graph).  The
denormalised `followerId`/`followingId` copies stored by the handler are
omitted: no read path consults them. -/
structure FollowDoc where
  follower : String
  following : String
  createdAt : Nat
  deriving DecidableEq

/-- A document of the `comments` collection. -/
structure CommentDoc where
  id : Nat
  postId : Nat
  author : String
  text : String
  createdAt : Nat
  deriving DecidableEq

/-- A document of the `likes` collection (one per-user vote on a post). -/
structure LikeDoc where
  id : Nat
  postId : Nat
  user : String
  isLike : Bool
  createdAt : Nat
  updatedAt : Option Nat
  deriving DecidableEq

/-- The server-side session data consulted by every guarded handler. -/
structure Session where
  userId : Nat
  username : String
  deriving DecidableEq

/-- The `{status, success, message}` envelope of a JSON response whose
payload the claims do not inspect. -/
structure ApiStatus where
  status : Nat
  success : Bool
  message : String
  deriving DecidableEq

/-! ### Registration (POST /users) -/

/-- The parsed body of a registration request.  `dob` is the parsed date:
the raw-string presence check of the handler is subsumed by the field
being present. -/
structure RegisterRequest where
  username : String
  email : String
  phone : String
  dob : Date
  password : String
  deriving DecidableEq

/-- Abstract stand-in for `bcrypt.hash(p, 10)` (an external library call):
an injective tag of the cleartext, never compared against by any handler
modelled here. -/
def hashPw (p : String) : String :=
  "bcrypt$" ++ p

/-- The POST /users handler: field validations in source order, then the
duplicate-username/email check, then the insert.  `today` is the clock
read by `calculateAge`, `now` the stored creation timestamp and `newId`
the `_id` MongoDB assigns to the inserted document. -/
def register (today : Date) (now newId : Nat) (users : List UserDoc)
    (r : RegisterRequest) : ApiStatus × List UserDoc :=
  if r.username = "" || r.email = "" || r.phone = "" || r.password = "" then
    (⟨400, false, "All fields (username, email, phone, dob, password) are required."⟩, users)
  else if r.username.toList.any isWsChar then
    (⟨400, false, "Username cannot contain spaces."⟩, users)
  else if !(isValidEmail r.email) then
    (⟨400, false, "Invalid email format."⟩, users)
  else if !(isValidPhoneNumber r.phone) then
    (⟨400, false, "Invalid phone number format. Required format: country code + 8 digits (e.g., +97112345678)."⟩, users)
  else if r.password.length < 6 then
    (⟨400, false, "Password must be at least 6 characters long."⟩, users)
  else if calculateAge r.dob today < 10 then
    (⟨400, false, "You must be at least 10 years old to register."⟩, users)
  else if users.any (fun u => u.username = r.username || u.email = r.email) then
    (⟨400, false, "Username or email already exists."⟩, users)
  else
    (⟨201, true, "User registered successfully."⟩,
      users ++ [⟨newId, r.username, r.email, r.phone, r.dob, hashPw r.password, now, none⟩])

/-! ### User search (GET /users) -/

/-- The `{username, email, _id}` projection applied by the user-search
handler; the stored password is not part of the projected document. -/
structure UserSummary where
  id : Nat
  username : String
  email : String
  deriving DecidableEq

/-- Response of GET /users. -/
structure UserSearchResponse where
  success : Bool
  message : String
  searchQuery : String
  count : Nat
  users : List UserSummary
  deriving DecidableEq

/-- The GET /users handler: case-insensitive username match, projected to
username/email/_id. -/
def searchUsersHandler (users : List UserDoc) (q : String) : UserSearchResponse :=
  let found := (users.filter (fun u => ciContains u.username q)).map
    (fun u => UserSummary.mk u.id u.username u.email)
  ⟨true, "User search completed successfully.", q, found.length, found⟩

/-! ### Content search (GET /contents) -/

/-- Response of GET /contents. -/
structure ContentSearchResponse where
  success : Bool
  message : String
  searchQuery : String
  language : String
  count : Nat
  contents : List ContentDoc
  deriving DecidableEq

/-- The conjunction of the `$and` query parts built by GET /contents for
already-trimmed query `tq` and language filter `tlang`: a part is only
pushed when its input is nonempty. -/
def contentMatches (tq tlang : String) (c : ContentDoc) : Bool :=
  (tq = "" || (ciContains c.title tq || ciContains c.description tq ||
               ciContains c.programmingLanguage tq)) &&
  (tlang = "" || ciEq c.programmingLanguage tlang)

/-- The GET /contents handler: trim both inputs, filter by the `$and`
query, sort newest-first by `createdAt`. -/
def searchContents (contents : List ContentDoc) (q language : String) :
    ContentSearchResponse :=
  let tq := strTrim q
  let tlang := strTrim language
  let results := sortByDesc (fun c => c.createdAt)
    (contents.filter (contentMatches tq tlang))
  ⟨true, "Content search completed successfully.", tq, tlang, results.length, results⟩

/-! ### Follow / unfollow (POST and DELETE /follow) -/

/-- The POST /follow handler: login gate, required-field check, self-follow
rejection, target-existence check, duplicate-edge check, insert. -/
def followHandler (session : Option Session) (users : List UserDoc)
    (follows : List FollowDoc) (now : Nat) (username : String) :
    ApiStatus × List FollowDoc :=
  match session with
  | none => (⟨401, false, "Please login to follow users."⟩, follows)
  | some s =>
    if username = "" then (⟨400, false, "Username is required."⟩, follows)
    else if username = s.username then
      (⟨400, false, "You cannot follow yourself."⟩, follows)
    else if !(users.any (fun u => u.username = username)) then
      (⟨404, false, "User not found."⟩, follows)
    else if follows.any (fun f => f.follower = s.username && f.following = username) then
      (⟨400, false, "You are already following " ++ username ++ "."⟩, follows)
    else
      (⟨200, true, "You are now following " ++ username ++ "."⟩,
        follows ++ [⟨s.username, username, now⟩])

/-- The DELETE /follow handler: login gate, required-field check, then
`deleteOne`; a zero deleted count is reported as 404. -/
def unfollowHandler (session : Option Session) (follows : List FollowDoc)
    (username : String) : ApiStatus × List FollowDoc :=
  match session with
  | none => (⟨401, false, "Please login to unfollow users."⟩, follows)
  | some s =>
    if username = "" then (⟨400, false, "Username is required."⟩, follows)
    else if follows.any (fun f => f.follower = s.username && f.following = username) then
      (⟨200, true, "You have unfollowed " ++ username ++ "."⟩,
        deleteFirst (fun f => f.follower = s.username && f.following = username) follows)
    else (⟨404, false, "You are not following " ++ username ++ "."⟩, follows)

/-! ### Feed (GET /feed) -/

/-- Response of GET /feed. -/
structure FeedResponse where
  success : Bool
  message : String
  page : Nat
  limit : Nat
  totalCount : Nat
  totalPages : Nat
  count : Nat
  contents : List ContentDoc
  deriving DecidableEq

/-- The GET /feed handler.  `page` and `limit` are the values after the
`parseInt(..) || default` coercion; `totalPages` realises
`Math.ceil(totalCount / limit)` for the positive limits the coercion
produces. -/
def feedHandler (session : Option Session) (follows : List FollowDoc)
    (contents : List ContentDoc) (page limit : Nat) : FeedResponse :=
  match session with
  | none => ⟨false, "Please login to view your feed.", page, limit, 0, 0, 0, []⟩
  | some s =>
    let skip := (page - 1) * limit
    let followedUsernames :=
      (follows.filter (fun f => f.follower = s.username)).map FollowDoc.following
    if followedUsernames.isEmpty then
      ⟨true, "Your feed is empty. Follow users to see their posts.",
        page, limit, 0, 0, 0, []⟩
    else
      let matching := contents.filter (fun c => followedUsernames.contains c.author)
      let totalCount := matching.length
      let totalPages := (totalCount + limit - 1) / limit
      let results := ((sortByDesc (fun c => c.createdAt) matching).drop skip).take limit
      ⟨true, "Feed retrieved successfully.", page, limit, totalCount, totalPages,
        results.length, results⟩

/-! ### Followers / following / profile (GET /users/:username/...) -/

/-- The `{username, email, profileImage, _id}` projection used by the
followers and following handlers. -/
structure UserCard where
  id : Nat
  username : String
  email : String
  profileImage : Option String
  deriving DecidableEq

/-- Response of the followers and following listings. -/
inductive FollowListResponse
  | notFound
  | ok (username : String) (count : Nat) (users : List UserCard)
  deriving DecidableEq

/-- The GET /users/:username/followers handler: existence check, collect
follower usernames, join back against the users collection under the
password-free projection. -/
def followersHandler (users : List UserDoc) (follows : List FollowDoc)
    (username : String) : FollowListResponse :=
  if !(users.any (fun u => u.username = username)) then .notFound
  else
    let names := (follows.filter (fun f => f.following = username)).map FollowDoc.follower
    let details := (users.filter (fun u => names.contains u.username)).map
      (fun u => UserCard.mk u.id u.username u.email u.profileImage)
    .ok username details.length details

/-- The GET /users/:username/following handler, symmetric to the
followers listing. -/
def followingHandler (users : List UserDoc) (follows : List FollowDoc)
    (username : String) : FollowListResponse :=
  if !(users.any (fun u => u.username = username)) then .notFound
  else
    let names := (follows.filter (fun f => f.follower = username)).map FollowDoc.following
    let details := (users.filter (fun u => names.contains u.username)).map
      (fun u => UserCard.mk u.id u.username u.email u.profileImage)
    .ok username details.length details

/-- The aggregate counters of a profile response; `likes` is the literal
placeholder 0 of the source. -/
structure ProfileStats where
  posts : Nat
  likes : Nat
  followers : Nat
  following : Nat
  deriving DecidableEq

/-- Response of GET /users/:username/profile. -/
inductive ProfileResponse
  | notFound
  | ok (username email : String) (profileImage : Option String) (createdAt : Nat)
      (stats : ProfileStats) (isFollowing : Bool)
  deriving DecidableEq

/-- The GET /users/:username/profile handler: `findOne` with the
`{password: 0}` projection, on-demand counters, and the viewer-dependent
`isFollowing` flag. -/
def profileHandler (session : Option Session) (users : List UserDoc)
    (contents : List ContentDoc) (follows : List FollowDoc) (username : String) :
    ProfileResponse :=
  match users.find? (fun u => u.username = username) with
  | none => .notFound
  | some user =>
    let postsCount := (contents.filter (fun c => c.author = username)).length
    let followersCount := (follows.filter (fun f => f.following = username)).length
    let followingCount := (follows.filter (fun f => f.follower = username)).length
    let isF := match session with
      | some s =>
        if s.username ≠ username then
          follows.any (fun f => f.follower = s.username && f.following = username)
        else false
      | none => false
    .ok user.username user.email user.profileImage user.createdAt
      ⟨postsCount, 0, followersCount, followingCount⟩ isF

/-! ### Comments (POST/GET /posts/:postId/comments, DELETE /comments/:commentId) -/

/-- The DELETE /comments/:commentId handler: login gate, `findOne` by id,
author-only authorisation, then `deleteOne` by id. -/
def deleteCommentHandler (session : Option Session) (comments : List CommentDoc)
    (commentId : Nat) : ApiStatus × List CommentDoc :=
  match session with
  | none => (⟨401, false, "Please login to delete comments."⟩, comments)
  | some s =>
    match comments.find? (fun c => c.id = commentId) with
    | none => (⟨404, false, "Comment not found."⟩, comments)
    | some c =>
      if c.author ≠ s.username then
        (⟨403, false, "You can only delete your own comments."⟩, comments)
      else
        (⟨200, true, "Comment deleted successfully."⟩,
          deleteFirst (fun x => x.id = commentId) comments)

/-- The GET /posts/:postId/comments handler: all comments of the post,
newest-first. -/
def listComments (comments : List CommentDoc) (postId : Nat) : List CommentDoc :=
  sortByDesc (fun c => c.createdAt) (comments.filter (fun c => c.postId = postId))

/-! ### Votes (POST /posts/:postId/like) -/

/-- The two JSON shapes produced by the like handler: the plain error
envelope, or the success envelope carrying `action` and `isLike`. -/
inductive VoteOutcome
  | err (status : Nat) (message : String)
  | ok (status : Nat) (message : String) (action : String) (isLike : Bool)
  deriving DecidableEq

/-- The POST /posts/:postId/like handler: login gate, post-existence check,
then toggle semantics on the single (post, user) vote record — same
direction removes it, opposite direction flips it, absence creates it. -/
def voteHandler (session : Option Session) (contents : List ContentDoc)
    (likes : List LikeDoc) (now newId : Nat) (postId : Nat) (isLike : Bool) :
    VoteOutcome × List LikeDoc :=
  match session with
  | none => (.err 401 "Please login to like posts.", likes)
  | some s =>
    if !(contents.any (fun c => c.id = postId)) then
      (.err 404 "Post not found.", likes)
    else
      match likes.find? (fun l => l.postId = postId && l.user = s.username) with
      | some e =>
        if e.isLike = isLike then
          (.ok 200 (if isLike then "Like removed." else "Dislike removed.") "removed" isLike,
            deleteFirst (fun l => l.id = e.id) likes)
        else
          (.ok 200 (if isLike then "Changed to like." else "Changed to dislike.") "updated" isLike,
            updateFirst (fun l => l.id = e.id)
              (fun l => { l with isLike := isLike, updatedAt := some now }) likes)
      | none =>
        (.ok 201 (if isLike then "Post liked." else "Post disliked.") "created" isLike,
          likes ++ [⟨newId, postId, s.username, isLike, now, none⟩])

/-! ### Database setup (src/setup_db.js) -/

/-- One key of a MongoDB index specification: ascending, descending, or a
text index component. -/
inductive IndexKey
  | asc (field : String)
  | desc (field : String)
  | text (field : String)
  deriving DecidableEq

/-- An index created by `createIndex`: target collection, key list, and
whether the `{unique: true}` option was passed. -/
structure IndexSpec where
  collection : String
  keys : List IndexKey
  unique : Bool
  deriving DecidableEq

/-- The full list of indexes created by `setupDatabase` in the latest
revision of the setup script (the revision that supersedes
src/setup_db.js: it drops that revision's `language` text index by name,
indexes the `programmingLanguage` field the final server writes, and adds
the `comments` and `likes` collections), in source order.  The
`dropIndex` calls remove superseded indexes and create nothing, so they
do not appear in the list. -/
def setupIndexes : List IndexSpec := [
  ⟨"users", [.asc "username"], true⟩,
  ⟨"users", [.asc "email"], true⟩,
  ⟨"users", [.desc "createdAt"], false⟩,
  ⟨"contents", [.asc "author"], false⟩,
  ⟨"contents", [.asc "authorId"], false⟩,
  ⟨"contents", [.desc "createdAt"], false⟩,
  ⟨"contents", [.text "title", .text "description"], false⟩,
  ⟨"contents", [.asc "programmingLanguage"], false⟩,
  ⟨"follows", [.asc "follower", .asc "following"], true⟩,
  ⟨"follows", [.asc "follower"], false⟩,
  ⟨"follows", [.asc "following"], false⟩,
  ⟨"follows", [.desc "createdAt"], false⟩,
  ⟨"comments", [.asc "postId"], false⟩,
  ⟨"comments", [.asc "author"], false⟩,
  ⟨"comments", [.desc "createdAt"], false⟩,
  ⟨"likes", [.asc "postId", .asc "user"], true⟩,
  ⟨"likes", [.asc "postId"], false⟩,
  ⟨"likes", [.asc "user"], false⟩]

/-! ### The route table and the 404 fallback (src/server.js) -/

/-- HTTP methods used by the application routes. -/
inductive Method
  | GET
  | POST
  | DELETE
  deriving DecidableEq

/-- One segment of an Express route pattern: a literal, or a `:name`
parameter. -/
inductive Seg
  | lit (s : String)
  | param (name : String)
  deriving DecidableEq

/-- The fixed namespace path segment (`STUDENT_ID` in server.js). -/
def studentId : String := "M01039337"

/-- Every route registered on the Express app in src/server.js, in
registration order.  There is no POST /{ns}/recover route. -/
def routes : List (Method × List Seg) := [
  (.GET, []),
  (.GET, [.lit studentId, .lit "test"]),
  (.POST, [.lit studentId, .lit "users"]),
  (.GET, [.lit studentId, .lit "users"]),
  (.GET, [.lit studentId, .lit "login"]),
  (.POST, [.lit studentId, .lit "login"]),
  (.DELETE, [.lit studentId, .lit "login"]),
  (.POST, [.lit studentId, .lit "contents"]),
  (.GET, [.lit studentId, .lit "contents"]),
  (.POST, [.lit studentId, .lit "follow"]),
  (.DELETE, [.lit studentId, .lit "follow"]),
  (.GET, [.lit studentId, .lit "feed"]),
  (.GET, [.lit studentId, .lit "users", .param "username", .lit "stats"]),
  (.GET, [.lit studentId, .lit "users", .param "username", .lit "followers"]),
  (.GET, [.lit studentId, .lit "users", .param "username", .lit "following"]),
  (.GET, [.lit studentId, .lit "users", .param "username", .lit "posts"]),
  (.GET, [.lit studentId, .lit "users", .param "username", .lit "profile"]),
  (.POST, [.lit studentId, .lit "upload", .lit "profile-picture"]),
  (.POST, [.lit studentId, .lit "posts", .param "postId", .lit "comments"]),
  (.GET, [.lit studentId, .lit "posts", .param "postId", .lit "comments"]),
  (.DELETE, [.lit studentId, .lit "comments", .param "commentId"]),
  (.POST, [.lit studentId, .lit "posts", .param "postId", .lit "like"]),
  (.GET, [.lit studentId, .lit "posts", .param "postId", .lit "likes"]),
  (.GET, [.lit studentId, .lit "trending-gists"])]

/-- Does a pattern segment accept a concrete path segment? -/
def segMatches : Seg → String → Bool
  | .lit s, t => s = t
  | .param _, _ => true

/-- Does a route pattern accept a concrete segment list? -/
def segsMatch : List Seg → List String → Bool
  | [], [] => true
  | p :: ps, t :: ts => segMatches p t && segsMatch ps ts
  | _, _ => false

/-- The non-empty slash-separated segments of a request path. -/
def pathSegs (p : String) : List String :=
  ((splitOnChar '/' p.toList).map (fun cs => String.mk cs)).filter (fun s => s ≠ "")

/-- Does any registered route match the given method and path? -/
def routeExists (m : Method) (p : String) : Bool :=
  routes.any (fun r => r.1 = m && segsMatch r.2 (pathSegs p))

/-- The `/\.[^/.]+$/` test of the 404 fallback: the path ends in a dot
followed by at least one character that is neither a dot nor a slash. -/
def hasFileExtension (p : String) : Bool :=
  let rev := p.toList.reverse
  let ext := rev.takeWhile (fun c => c ≠ '.' && c ≠ '/')
  !ext.isEmpty && (rev.drop ext.length).head? = some '.'

/-- The two response shapes of the 404 fallback: the JSON API envelope,
or the plain-text file message. -/
inductive NotFoundResult
  | apiJson (status : Nat) (success : Bool) (message : String)
  | file (status : Nat) (body : String)
  deriving DecidableEq

/-- The 404 fallback middleware of src/server.js. -/
def notFoundHandler (p : String) : NotFoundResult :=
  if hasFileExtension p then .file 404 "File not found"
  else .apiJson 404 false "API route not found."

/-- Express dispatch for a request no registered route matches: the
request falls through every route to the 404 fallback.  Returns `none`
when some route (whose handler is modelled separately) accepts the
request. -/
def dispatchUnrouted (m : Method) (p : String) : Option NotFoundResult :=
  if routeExists m p then none else some (notFoundHandler p)

/-! ### The browser recovery client (recover.js, latest revision) -/

/-- The fields the recovery client reads off the parsed JSON body of the
POST /{ns}/recover response; absent fields surface as the falsy defaults
`false` and `""`. -/
structure RecoverServerData where
  success : Bool
  recovered : Bool
  password : String
  message : String
  deriving DecidableEq

/-- The message `RecoveryManager.handleRecovery` displays for a given
server response body: the revealed password on `success && recovered`,
otherwise the server message or the generic failure text. -/
def handleRecoveryDisplay (data : RecoverServerData) : String :=
  if data.success && data.recovered then
    "Password recovery successful! Your password is: " ++ data.password
  else if data.message ≠ "" then data.message
  else "Account recovery failed."

/-! ### Password scrubbing, used to state the non-flow hyperproperty -/

/-- Replace the stored password hash of a user document by the empty
string, leaving every other field intact. -/
def scrubPassword (u : UserDoc) : UserDoc :=
  { u with password := "" }

/-! ### Helper lemmas about the list operations -/

theorem insertDesc_perm (key : α → Nat) (x : α) (l : List α) :
    List.Perm (insertDesc key x l) (x :: l) := by
  induction l with
  | nil => simp [insertDesc]
  | cons y ys ih =>
    simp only [insertDesc]
    by_cases h : key y < key x
    · simp [h]
    · simp only [h, if_neg, ite_false]
      exact (List.Perm.cons y ih).trans (List.Perm.swap x y ys)

theorem sortByDesc_perm (key : α → Nat) (l : List α) :
    List.Perm (sortByDesc key l) l := by
  induction l with
  | nil => simp [sortByDesc]
  | cons x xs ih =>
    exact (insertDesc_perm key x (sortByDesc key xs)).trans (List.Perm.cons x ih)

theorem mem_sortByDesc (key : α → Nat) (l : List α) (a : α) :
    a ∈ sortByDesc key l ↔ a ∈ l :=
  (sortByDesc_perm key l).mem_iff

theorem insertDesc_pairwise (key : α → Nat) (x : α) (l : List α)
    (h : l.Pairwise (fun a b => key b ≤ key a)) :
    (insertDesc key x l).Pairwise (fun a b => key b ≤ key a) := by
  induction l with
  | nil => simp [insertDesc]
  | cons y ys ih =>
    simp only [insertDesc]
    rcases List.pairwise_cons.mp h with ⟨hy, hys⟩
    by_cases hlt : key y < key x
    · rw [if_pos hlt]
      refine List.pairwise_cons.mpr ⟨?_, h⟩
      intro z hz
      rcases List.mem_cons.mp hz with rfl | hz
      · exact Nat.le_of_lt hlt
      · exact Nat.le_trans (hy z hz) (Nat.le_of_lt hlt)
    · rw [if_neg hlt]
      refine List.pairwise_cons.mpr ⟨?_, ih hys⟩
      intro z hz
      rcases List.mem_cons.mp ((insertDesc_perm key x ys).mem_iff.mp hz) with rfl | hz
      · exact Nat.le_of_not_lt hlt
      · exact hy z hz

theorem sortByDesc_pairwise (key : α → Nat) (l : List α) :
    (sortByDesc key l).Pairwise (fun a b => key b ≤ key a) := by
  induction l with
  | nil => simp [sortByDesc]
  | cons x xs ih => exact insertDesc_pairwise key x (sortByDesc key xs) ih

theorem deleteFirst_append_singleton (p : α → Bool) (l : List α) (x : α)
    (hl : ∀ y ∈ l, p y = false) (hx : p x = true) :
    deleteFirst p (l ++ [x]) = l := by
  induction l with
  | nil => simp [deleteFirst, hx]
  | cons a as ih =>
    have ha : p a = false := hl a (List.mem_cons_self a as)
    have hstep : deleteFirst p ((a :: as) ++ [x]) = a :: deleteFirst p (as ++ [x]) := by
      simp only [List.cons_append, deleteFirst, ha, Bool.false_eq_true, if_false]
      rfl
    rw [hstep, ih (fun y hy => hl y (List.mem_cons_of_mem a hy))]

theorem updateFirst_append_singleton (p : α → Bool) (g : α → α) (l : List α) (x : α)
    (hl : ∀ y ∈ l, p y = false) (hx : p x = true) :
    updateFirst p g (l ++ [x]) = l ++ [g x] := by
  induction l with
  | nil => simp [updateFirst, hx]
  | cons a as ih =>
    have ha : p a = false := hl a (List.mem_cons_self a as)
    have hstep : updateFirst p g ((a :: as) ++ [x]) = a :: updateFirst p g (as ++ [x]) := by
      simp only [List.cons_append, updateFirst, ha, Bool.false_eq_true, if_false]
      rfl
    rw [hstep, ih (fun y hy => hl y (List.mem_cons_of_mem a hy))]
    rfl

theorem find?_append_of_none (p : α → Bool) (l₁ l₂ : List α)
    (h : l₁.find? p = none) : (l₁ ++ l₂).find? p = l₂.find? p := by
  induction l₁ with
  | nil => simp
  | cons a as ih =>
    rcases hp : p a with hf | ht
    · simp only [List.cons_append, List.find?_cons, hp]
      exact ih (by simpa [List.find?_cons, hp] using h)
    · simp [List.find?_cons, hp] at h

theorem find?_key_unique (key : α → Nat) {l : List α} (hnd : (l.map key).Nodup)
    {x : α} (hx : x ∈ l) : l.find? (fun y => key y = key x) = some x := by
  induction l with
  | nil => cases hx
  | cons a as ih =>
    have hnd' : (key a :: as.map key).Nodup := by simpa using hnd
    rcases List.nodup_cons.mp hnd' with ⟨hna, hnas⟩
    by_cases hk : key a = key x
    · have hax : a = x := by
        rcases List.mem_cons.mp hx with rfl | hmem
        · rfl
        · exact absurd (hk ▸ List.mem_map_of_mem key hmem) hna
      rw [List.find?_cons_of_pos _ (by simpa using hk), hax]
    · have hmem : x ∈ as := by
        rcases List.mem_cons.mp hx with rfl | hmem
        · exact absurd rfl hk
        · exact hmem
      rw [List.find?_cons_of_neg _ (by simpa using hk)]
      exact ih hnas hmem

theorem deleteFirst_key_not_mem (key : α → Nat) {l : List α}
    (hnd : (l.map key).Nodup) (x : α) :
    x ∉ deleteFirst (fun y => key y = key x) l := by
  induction l with
  | nil => simp [deleteFirst]
  | cons a as ih =>
    have hnd' : (key a :: as.map key).Nodup := by simpa using hnd
    rcases List.nodup_cons.mp hnd' with ⟨hna, hnas⟩
    by_cases hk : key a = key x
    · have hstep : deleteFirst (fun y => key y = key x) (a :: as) = as := by
        simp only [deleteFirst]
        rw [if_pos (by simpa using hk)]
      rw [hstep]
      intro hmem
      exact hna (hk ▸ List.mem_map_of_mem key hmem)
    · have hstep : deleteFirst (fun y => key y = key x) (a :: as) =
          a :: deleteFirst (fun y => key y = key x) as := by
        simp only [deleteFirst]
        rw [if_neg (by simpa using hk)]
      rw [hstep]
      intro hmem
      rcases List.mem_cons.mp hmem with rfl | hmem
      · exact hk rfl
      · exact ih hnas hmem

theorem filter_map_comm (f : α → β) (p : β → Bool) (l : List α) :
    (l.map f).filter p = (l.filter (fun x => p (f x))).map f := by
  induction l with
  | nil => rfl
  | cons a as ih =>
    by_cases h : p (f a)
    · simp [List.filter_cons, h, ih]
    · simp [List.filter_cons, h, ih]

theorem find?_map_comm (f : α → β) (p : β → Bool) (l : List α) :
    (l.map f).find? p = (l.find? (fun x => p (f x))).map f := by
  induction l with
  | nil => rfl
  | cons a as ih =>
    by_cases h : p (f a)
    · simp [List.find?_cons, h]
    · simp [List.find?_cons, h, ih]

theorem any_map_comm (f : α → β) (p : β → Bool) (l : List α) :
    (l.map f).any p = l.any (fun x => p (f x)) := by
  induction l with
  | nil => rfl
  | cons a as ih => simp [List.any_cons, ih]

/-! ### Claim theorems -/

/-- C1: src/server.js registers no POST /{ns}/recover route, so every
recovery request — including one carrying a registered email with a
matching username — falls through to the 404 fallback and is answered
with the JSON error `API route not found.`; no password is ever revealed,
and the browser recovery client consequently displays that error text
rather than a revealed secret.  This contradicts the documented recovery
behaviour the client and README advertise. -/
theorem C1_recover_route_missing :
    routeExists .POST ("/" ++ studentId ++ "/recover") = false ∧
    dispatchUnrouted .POST ("/" ++ studentId ++ "/recover") =
      some (.apiJson 404 false "API route not found.") ∧
    handleRecoveryDisplay ⟨false, false, "", "API route not found."⟩ =
      "API route not found." := by
  decide

/-- C3: database setup creates a unique index for each of the four
uniqueness constraints on its corresponding collection — username and
email on `users`, the (follower, following) pair on `follows`, and the
(postId, user) vote pair on `likes` — so each constraint is enforced at
the storage layer. -/
theorem C3_unique_indexes :
    (setupIndexes.contains ⟨"users", [.asc "username"], true⟩ &&
     setupIndexes.contains ⟨"users", [.asc "email"], true⟩ &&
     setupIndexes.contains ⟨"follows", [.asc "follower", .asc "following"], true⟩ &&
     setupIndexes.contains ⟨"likes", [.asc "postId", .asc "user"], true⟩) = true := by
  decide

/-- C10: the password hash stored in the credential store never flows
into the responses of user search, followers listing, following listing
or profile retrieval: each of these reads returns identical responses on
a store whose passwords have all been scrubbed, for every store and every
request. -/
theorem C10_no_password_flow (users : List UserDoc) (contents : List ContentDoc)
    (follows : List FollowDoc) (session : Option Session) (q username : String) :
    searchUsersHandler (users.map scrubPassword) q = searchUsersHandler users q ∧
    followersHandler (users.map scrubPassword) follows username =
      followersHandler users follows username ∧
    followingHandler (users.map scrubPassword) follows username =
      followingHandler users follows username ∧
    profileHandler session (users.map scrubPassword) contents follows username =
      profileHandler session users contents follows username := by
  refine ⟨?_, ?_, ?_, ?_⟩
  · simp only [searchUsersHandler]
    rw [filter_map_comm, List.map_map]
    rfl
  · simp only [followersHandler]
    rw [any_map_comm, filter_map_comm, List.map_map]
    rfl
  · simp only [followingHandler]
    rw [any_map_comm, filter_map_comm, List.map_map]
    rfl
  · simp only [profileHandler]
    rw [find?_map_comm]
    have hp : (fun x => decide ((scrubPassword x).username = username)) =
        (fun u : UserDoc => decide (u.username = username)) := rfl
    rw [hp]
    cases users.find? (fun u => decide (u.username = username)) with
    | none => rfl
    | some u => rfl

/-- C4: content search succeeds and returns exactly the stored posts
matched by the (trimmed) query — title, description or language contains
the query as a case-insensitive substring when the query is nonempty, and
the language equals the (trimmed) filter case-insensitively when the
filter is nonempty — with an empty query and empty filter returning every
post, and the result always ordered newest-first by creation timestamp. -/
theorem C4_content_search (contents : List ContentDoc) (q language : String) :
    (searchContents contents q language).success = true ∧
    List.Perm (searchContents contents q language).contents
      (contents.filter (contentMatches (strTrim q) (strTrim language))) ∧
    (searchContents contents q language).contents.Pairwise
      (fun a b => b.createdAt ≤ a.createdAt) ∧
    (∀ c, c ∈ (searchContents contents q language).contents ↔
      (c ∈ contents ∧
       ((strTrim q) ≠ "" → (ciContains c.title (strTrim q) || ciContains c.description (strTrim q) ||
          ciContains c.programmingLanguage (strTrim q)) = true) ∧
       ((strTrim language) ≠ "" → ciEq c.programmingLanguage (strTrim language) = true))) ∧
    ((strTrim q) = "" → (strTrim language) = "" →
      List.Perm (searchContents contents q language).contents contents) := by
  refine ⟨rfl, ?_, ?_, ?_, ?_⟩
  · exact sortByDesc_perm _ _
  · exact sortByDesc_pairwise _ _
  · intro c
    rw [show (searchContents contents q language).contents =
        sortByDesc (fun c => c.createdAt)
          (contents.filter (contentMatches (strTrim q) (strTrim language))) from rfl]
    rw [mem_sortByDesc, List.mem_filter]
    constructor
    · rintro ⟨hmem, hmatch⟩
      simp only [contentMatches, Bool.and_eq_true, Bool.or_eq_true, decide_eq_true_eq]
        at hmatch
      refine ⟨hmem, ?_, ?_⟩
      · intro hq
        rcases hmatch.1 with h | h
        · exact absurd h hq
        · simpa using h
      · intro hl
        rcases hmatch.2 with h | h
        · exact absurd h hl
        · simpa using h
    · rintro ⟨hmem, hq, hl⟩
      refine ⟨hmem, ?_⟩
      simp only [contentMatches, Bool.and_eq_true, Bool.or_eq_true, decide_eq_true_eq]
      constructor
      · by_cases h : (strTrim q) = ""
        · exact Or.inl h
        · exact Or.inr (by simpa using hq h)
      · by_cases h : (strTrim language) = ""
        · exact Or.inl h
        · exact Or.inr (by simpa using hl h)
  · intro hq hl
    have hall : contents.filter (contentMatches (strTrim q) (strTrim language)) = contents := by
      rw [hq, hl]
      apply List.filter_eq_self.mpr
      intro c _
      rfl
    rw [show (searchContents contents q language).contents =
        sortByDesc (fun c => c.createdAt)
          (contents.filter (contentMatches (strTrim q) (strTrim language))) from rfl, hall]
    exact sortByDesc_perm _ _

/-- C4 witness: a concrete store and query exercising the nonempty-query
branch of the content-search theorem. -/
theorem C4_content_search_witness :
    ((strTrim "py") ≠ "") ∧
    ((⟨1, "t", "d", "c", "Python", "a", 5⟩ : ContentDoc) ∈
      (searchContents [⟨1, "t", "d", "c", "Python", "a", 5⟩] "py" "").contents) := by
  refine ⟨by decide, ?_⟩
  exact ((C4_content_search [⟨1, "t", "d", "c", "Python", "a", 5⟩] "py" "").2.2.2.1
    ⟨1, "t", "d", "c", "Python", "a", 5⟩).mpr
    ⟨by decide, fun h => by decide, fun h => absurd rfl h⟩

/-- C6: for a logged-in user the feed is exactly the stored posts whose
author is someone the user follows, ordered newest-first and paginated by
the (page, limit) window, with `totalCount` counting all matching posts;
when the user follows nobody the handler returns a successful explicit
empty response carrying the guidance message instead of an error. -/
theorem C6_feed (uid : Nat) (u : String) (follows : List FollowDoc)
    (contents : List ContentDoc) (page limit : Nat) :
    ((follows.filter (fun f => f.follower = u)).map FollowDoc.following = [] →
      feedHandler (some ⟨uid, u⟩) follows contents page limit =
        ⟨true, "Your feed is empty. Follow users to see their posts.",
          page, limit, 0, 0, 0, []⟩) ∧
    ((follows.filter (fun f => f.follower = u)).map FollowDoc.following ≠ [] →
      ((feedHandler (some ⟨uid, u⟩) follows contents page limit).success = true ∧
       (feedHandler (some ⟨uid, u⟩) follows contents page limit).message =
         "Feed retrieved successfully." ∧
       (feedHandler (some ⟨uid, u⟩) follows contents page limit).contents =
         ((sortByDesc (fun c => c.createdAt) (contents.filter (fun c =>
             ((follows.filter (fun f => f.follower = u)).map
               FollowDoc.following).contains c.author))).drop
           ((page - 1) * limit)).take limit ∧
       (feedHandler (some ⟨uid, u⟩) follows contents page limit).totalCount =
         (contents.filter (fun c =>
           ((follows.filter (fun f => f.follower = u)).map
             FollowDoc.following).contains c.author)).length ∧
       (feedHandler (some ⟨uid, u⟩) follows contents page limit).contents.Pairwise
         (fun a b => b.createdAt ≤ a.createdAt) ∧
       (∀ c ∈ (feedHandler (some ⟨uid, u⟩) follows contents page limit).contents,
         c ∈ contents ∧ ∃ f ∈ follows, f.follower = u ∧ f.following = c.author))) := by
  constructor
  · intro h
    simp [feedHandler, h]
  · intro h
    have hne : ((follows.filter (fun f => f.follower = u)).map
        FollowDoc.following).isEmpty = false := by
      cases hM : (follows.filter (fun f => f.follower = u)).map FollowDoc.following with
      | nil => exact absurd hM h
      | cons a as => rfl
    have hunfold : feedHandler (some ⟨uid, u⟩) follows contents page limit =
        ⟨true, "Feed retrieved successfully.", page, limit,
          (contents.filter (fun c =>
            ((follows.filter (fun f => f.follower = u)).map
              FollowDoc.following).contains c.author)).length,
          ((contents.filter (fun c =>
            ((follows.filter (fun f => f.follower = u)).map
              FollowDoc.following).contains c.author)).length + limit - 1) / limit,
          (((sortByDesc (fun c => c.createdAt) (contents.filter (fun c =>
            ((follows.filter (fun f => f.follower = u)).map
              FollowDoc.following).contains c.author))).drop
            ((page - 1) * limit)).take limit).length,
          ((sortByDesc (fun c => c.createdAt) (contents.filter (fun c =>
            ((follows.filter (fun f => f.follower = u)).map
              FollowDoc.following).contains c.author))).drop
            ((page - 1) * limit)).take limit⟩ := by
      simp only [feedHandler, hne]
      rfl
    rw [hunfold]
    refine ⟨rfl, rfl, rfl, rfl, ?_, ?_⟩
    · exact List.Pairwise.sublist
        ((List.take_sublist _ _).trans (List.drop_sublist _ _))
        (sortByDesc_pairwise _ _)
    · intro c hc
      have hc' : c ∈ sortByDesc (fun c => c.createdAt) (contents.filter (fun c =>
          ((follows.filter (fun f => f.follower = u)).map
            FollowDoc.following).contains c.author)) :=
        ((List.take_sublist _ _).trans (List.drop_sublist _ _)).subset hc
      rw [mem_sortByDesc, List.mem_filter] at hc'
      refine ⟨hc'.1, ?_⟩
      have hauth : c.author ∈ (follows.filter (fun f => f.follower = u)).map
          FollowDoc.following := by
        simpa using hc'.2
      rcases List.mem_map.mp hauth with ⟨f, hf, hfa⟩
      rcases List.mem_filter.mp hf with ⟨hfmem, hffol⟩
      exact ⟨f, hfmem, by simpa using hffol, hfa⟩

/-- C6 witness: a user following nobody gets the explicit empty feed, and
a user following one author gets that author's post in the feed. -/
theorem C6_feed_witness :
    feedHandler (some ⟨2, "bob"⟩) [] [] 1 20 =
      ⟨true, "Your feed is empty. Follow users to see their posts.", 1, 20, 0, 0, 0, []⟩ ∧
    (feedHandler (some ⟨2, "bob"⟩) [⟨"bob", "alice", 0⟩]
        [⟨1, "Hi", "", "print(1)", "python", "alice", 10⟩] 1 20).contents =
      [⟨1, "Hi", "", "print(1)", "python", "alice", 10⟩] := by
  constructor
  · exact (C6_feed 2 "bob" [] [] 1 20).1 (by decide)
  · have h := (C6_feed 2 "bob" [⟨"bob", "alice", 0⟩]
      [⟨1, "Hi", "", "print(1)", "python", "alice", 10⟩] 1 20).2 (by decide)
    rw [h.2.2.1]
    decide

/-- C9: deleting a stored comment as a requester other than its author is
rejected with the 403 forbidden error and leaves the comments collection
unchanged; deleting it as its author succeeds, and the comment afterwards
appears neither in the collection nor in the comment listing of its post
(the `_id` uniqueness hypothesis is MongoDB's built-in primary-key
invariant). -/
theorem C9_comment_deletion (uid : Nat) (r : String) (comments : List CommentDoc)
    (c : CommentDoc) (hmem : c ∈ comments)
    (hnodup : (comments.map CommentDoc.id).Nodup) :
    (r ≠ c.author →
      deleteCommentHandler (some ⟨uid, r⟩) comments c.id =
        (⟨403, false, "You can only delete your own comments."⟩, comments)) ∧
    (r = c.author →
      ((deleteCommentHandler (some ⟨uid, r⟩) comments c.id).1 =
         ⟨200, true, "Comment deleted successfully."⟩ ∧
       c ∉ (deleteCommentHandler (some ⟨uid, r⟩) comments c.id).2 ∧
       c ∉ listComments ((deleteCommentHandler (some ⟨uid, r⟩) comments c.id).2)
         c.postId)) := by
  have hfind : comments.find? (fun x => x.id = c.id) = some c :=
    find?_key_unique CommentDoc.id hnodup hmem
  constructor
  · intro hr
    simp only [deleteCommentHandler, hfind]
    rw [if_pos (Ne.symm hr)]
  · intro hr
    have hstep : deleteCommentHandler (some ⟨uid, r⟩) comments c.id =
        (⟨200, true, "Comment deleted successfully."⟩,
          deleteFirst (fun x => x.id = c.id) comments) := by
      simp only [deleteCommentHandler, hfind]
      rw [if_neg (fun hne => hne hr.symm)]
    have hnotmem : c ∉ deleteFirst (fun x => x.id = c.id) comments :=
      deleteFirst_key_not_mem CommentDoc.id hnodup c
    refine ⟨by rw [hstep], by rw [hstep]; exact hnotmem, ?_⟩
    rw [hstep]
    intro hlist
    rw [listComments, mem_sortByDesc, List.mem_filter] at hlist
    exact hnotmem hlist.1

/-- C9 witness: a single stored comment by alice; bob cannot delete it,
alice can, and afterwards it is gone from the listing of post 5. -/
theorem C9_comment_deletion_witness :
    deleteCommentHandler (some ⟨9, "bob"⟩) [⟨1, 5, "alice", "hi", 3⟩] 1 =
      (⟨403, false, "You can only delete your own comments."⟩,
        [⟨1, 5, "alice", "hi", 3⟩]) ∧
    (deleteCommentHandler (some ⟨8, "alice"⟩) [⟨1, 5, "alice", "hi", 3⟩] 1).1 =
      ⟨200, true, "Comment deleted successfully."⟩ ∧
    (⟨1, 5, "alice", "hi", 3⟩ : CommentDoc) ∉
      listComments ((deleteCommentHandler (some ⟨8, "alice"⟩)
        [⟨1, 5, "alice", "hi", 3⟩] 1).2) 5 := by
  refine ⟨?_, ?_, ?_⟩
  · exact (C9_comment_deletion 9 "bob" [⟨1, 5, "alice", "hi", 3⟩]
      ⟨1, 5, "alice", "hi", 3⟩ (by decide) (by decide)).1 (by decide)
  · exact ((C9_comment_deletion 8 "alice" [⟨1, 5, "alice", "hi", 3⟩]
      ⟨1, 5, "alice", "hi", 3⟩ (by decide) (by decide)).2 rfl).1
  · exact ((C9_comment_deletion 8 "alice" [⟨1, 5, "alice", "hi", 3⟩]
      ⟨1, 5, "alice", "hi", 3⟩ (by decide) (by decide)).2 rfl).2.2

/-- C2: starting from a likes store holding no vote by user `u` on an
existing post `p`, voting like twice removes the record again — the
second call answers action `removed` and no (p, u) vote remains — while
voting like then dislike leaves exactly one (p, u) record, with
isLike = false, the second call answering action `updated`.  The
freshness hypothesis on the inserted `_id` is MongoDB's primary-key
invariant. -/
theorem C2_vote_toggle (uid now1 now2 id1 id2 p : Nat) (u : String)
    (contents : List ContentDoc) (likes : List LikeDoc)
    (hpost : ∃ pc ∈ contents, pc.id = p)
    (hnone : ∀ l ∈ likes, ¬(l.postId = p ∧ l.user = u))
    (hfresh : ∀ l ∈ likes, l.id ≠ id1) :
    ((voteHandler (some ⟨uid, u⟩) contents
        ((voteHandler (some ⟨uid, u⟩) contents likes now1 id1 p true).2)
        now2 id2 p true).1 = .ok 200 "Like removed." "removed" true ∧
     (∀ l ∈ (voteHandler (some ⟨uid, u⟩) contents
        ((voteHandler (some ⟨uid, u⟩) contents likes now1 id1 p true).2)
        now2 id2 p true).2, ¬(l.postId = p ∧ l.user = u))) ∧
    ((voteHandler (some ⟨uid, u⟩) contents
        ((voteHandler (some ⟨uid, u⟩) contents likes now1 id1 p true).2)
        now2 id2 p false).1 = .ok 200 "Changed to dislike." "updated" false ∧
     ((voteHandler (some ⟨uid, u⟩) contents
        ((voteHandler (some ⟨uid, u⟩) contents likes now1 id1 p true).2)
        now2 id2 p false).2.filter (fun l => l.postId = p && l.user = u)).length = 1 ∧
     (∀ l ∈ (voteHandler (some ⟨uid, u⟩) contents
        ((voteHandler (some ⟨uid, u⟩) contents likes now1 id1 p true).2)
        now2 id2 p false).2, (l.postId = p ∧ l.user = u) → l.isLike = false)) := by
  rcases hpost with ⟨pc, hpcmem, hpcid⟩
  have hany : contents.any (fun c => c.id = p) = true :=
    List.any_eq_true.mpr ⟨pc, hpcmem, by simpa using hpcid⟩
  have hfindnone : likes.find? (fun l => l.postId = p && l.user = u) = none :=
    List.find?_eq_none.mpr (fun l hl => by simpa using hnone l hl)
  have hstep1 : voteHandler (some ⟨uid, u⟩) contents likes now1 id1 p true =
      (.ok 201 "Post liked." "created" true,
        likes ++ [⟨id1, p, u, true, now1, none⟩]) := by
    simp only [voteHandler, hany, hfindnone]
    rfl
  have hfind2 : (likes ++ [(⟨id1, p, u, true, now1, none⟩ : LikeDoc)]).find?
      (fun l => l.postId = p && l.user = u) =
      some ⟨id1, p, u, true, now1, none⟩ := by
    rw [find?_append_of_none _ _ _ hfindnone]
    exact List.find?_cons_of_pos _ (by simp)
  have hdel : deleteFirst (fun l => l.id = id1)
      (likes ++ [(⟨id1, p, u, true, now1, none⟩ : LikeDoc)]) = likes :=
    deleteFirst_append_singleton _ _ _
      (fun y hy => by simpa using hfresh y hy) (by simp)
  have hupd : updateFirst (fun l => l.id = id1)
      (fun l => { l with isLike := false, updatedAt := some now2 })
      (likes ++ [(⟨id1, p, u, true, now1, none⟩ : LikeDoc)]) =
      likes ++ [⟨id1, p, u, false, now1, some now2⟩] :=
    updateFirst_append_singleton _ _ _ _
      (fun y hy => by simpa using hfresh y hy) (by simp)
  have hstep2 : voteHandler (some ⟨uid, u⟩) contents
      (likes ++ [(⟨id1, p, u, true, now1, none⟩ : LikeDoc)]) now2 id2 p true =
      (.ok 200 "Like removed." "removed" true, likes) := by
    simp only [voteHandler, hany, hfind2]
    simp only [Bool.not_true, Bool.false_eq_true, Bool.true_eq_false, if_false, if_true]
    rw [hdel]
  have hstep3 : voteHandler (some ⟨uid, u⟩) contents
      (likes ++ [(⟨id1, p, u, true, now1, none⟩ : LikeDoc)]) now2 id2 p false =
      (.ok 200 "Changed to dislike." "updated" false,
        likes ++ [⟨id1, p, u, false, now1, some now2⟩]) := by
    simp only [voteHandler, hany, hfind2]
    simp only [Bool.not_true, Bool.false_eq_true, Bool.true_eq_false, if_false, if_true]
    rw [hupd]
  rw [hstep1]
  refine ⟨⟨?_, ?_⟩, ?_, ?_, ?_⟩
  · rw [hstep2]
  · rw [hstep2]
    exact hnone
  · rw [hstep3]
  · rw [hstep3, List.filter_append]
    have hnil : likes.filter (fun l => l.postId = p && l.user = u) = [] := by
      rw [List.filter_eq_nil_iff]
      intro l hl
      simpa using hnone l hl
    rw [hnil]
    simp
  · rw [hstep3]
    intro l hl hpu
    rcases List.mem_append.mp hl with hmem | hmem
    · exact absurd hpu (hnone l hmem)
    · rcases List.mem_singleton.mp hmem with rfl
      rfl

/-- C2 witness: on post 5 with an empty likes store, user u likes twice
or likes then dislikes; the second responses and the surviving record
count are as the toggle law states. -/
theorem C2_vote_toggle_witness :
    (voteHandler (some ⟨7, "u"⟩) [⟨5, "t", "d", "c", "py", "a", 0⟩]
       ((voteHandler (some ⟨7, "u"⟩) [⟨5, "t", "d", "c", "py", "a", 0⟩]
         [] 1 100 5 true).2) 2 101 5 true).1 =
      .ok 200 "Like removed." "removed" true ∧
    (voteHandler (some ⟨7, "u"⟩) [⟨5, "t", "d", "c", "py", "a", 0⟩]
       ((voteHandler (some ⟨7, "u"⟩) [⟨5, "t", "d", "c", "py", "a", 0⟩]
         [] 1 100 5 true).2) 2 101 5 false).1 =
      .ok 200 "Changed to dislike." "updated" false ∧
    ((voteHandler (some ⟨7, "u"⟩) [⟨5, "t", "d", "c", "py", "a", 0⟩]
       ((voteHandler (some ⟨7, "u"⟩) [⟨5, "t", "d", "c", "py", "a", 0⟩]
         [] 1 100 5 true).2) 2 101 5 false).2.filter
      (fun l => l.postId = 5 && l.user = "u")).length = 1 := by
  have h := C2_vote_toggle 7 1 2 100 101 5 "u" [⟨5, "t", "d", "c", "py", "a", 0⟩]
    [] (by decide) (by decide) (by decide)
  exact ⟨h.1.1, h.2.1, h.2.2.1⟩

/-- C5: for users a and b — following with an already-existing (a, b)
edge fails with the 400 conflict error and changes nothing; unfollowing
without an existing edge fails with the 404 not-found error and changes
nothing; a successful follow followed by an unfollow leaves no (a, b)
edge; and a self-follow attempt is rejected whatever the state of the
users and follows stores. -/
theorem C5_follow_laws (uid now : Nat) (a b : String) (users : List UserDoc)
    (follows : List FollowDoc) :
    (b ≠ "" → a ≠ b → (∃ tu ∈ users, tu.username = b) →
      (∃ f ∈ follows, f.follower = a ∧ f.following = b) →
      followHandler (some ⟨uid, a⟩) users follows now b =
        (⟨400, false, "You are already following " ++ b ++ "."⟩, follows)) ∧
    (b ≠ "" → (∀ f ∈ follows, ¬(f.follower = a ∧ f.following = b)) →
      unfollowHandler (some ⟨uid, a⟩) follows b =
        (⟨404, false, "You are not following " ++ b ++ "."⟩, follows)) ∧
    ((followHandler (some ⟨uid, a⟩) users follows now b).1.success = true →
      ((unfollowHandler (some ⟨uid, a⟩)
          ((followHandler (some ⟨uid, a⟩) users follows now b).2) b).1.success = true ∧
       ∀ f ∈ (unfollowHandler (some ⟨uid, a⟩)
          ((followHandler (some ⟨uid, a⟩) users follows now b).2) b).2,
         ¬(f.follower = a ∧ f.following = b))) ∧
    ((followHandler (some ⟨uid, a⟩) users follows now a).1.success = false) := by
  refine ⟨?_, ?_, ?_, ?_⟩
  · rintro hbne hab ⟨tu, htumem, htub⟩ ⟨f, hfmem, hff, hfg⟩
    have hexists : users.any (fun x => x.username = b) = true :=
      List.any_eq_true.mpr ⟨tu, htumem, by simpa using htub⟩
    have hedge : follows.any (fun f => f.follower = a && f.following = b) = true :=
      List.any_eq_true.mpr ⟨f, hfmem, by simp [hff, hfg]⟩
    simp only [followHandler]
    rw [if_neg hbne, if_neg (fun h => hab h.symm), hexists, hedge]
    simp
  · intro hbne hnoedge
    have hany : follows.any (fun f => f.follower = a && f.following = b) = false := by
      rw [List.any_eq_false]
      intro f hf
      simpa using hnoedge f hf
    simp only [unfollowHandler]
    rw [if_neg hbne, hany]
    simp
  · intro hsucc
    by_cases hb0 : b = ""
    · simp [followHandler, hb0] at hsucc
    · by_cases hba : b = a
      · rw [hba] at hb0
        simp [followHandler, hba, hb0] at hsucc
      · by_cases hexist : users.any (fun x => x.username = b) = true
        · by_cases hedge : follows.any (fun f => f.follower = a && f.following = b) = true
          · simp [followHandler, hb0, hba, hexist, hedge] at hsucc
          · have hstore : (followHandler (some ⟨uid, a⟩) users follows now b).2 =
                follows ++ [⟨a, b, now⟩] := by
              simp only [followHandler]
              rw [if_neg hb0, if_neg hba, hexist,
                eq_false_of_ne_true hedge]
              simp
            have hall : ∀ f ∈ follows,
                (decide (f.follower = a) && decide (f.following = b)) = false :=
              fun f hf => Bool.eq_false_iff.mpr
                (List.any_eq_false.mp (eq_false_of_ne_true hedge) f hf)
            have hany2 : (follows ++ [(⟨a, b, now⟩ : FollowDoc)]).any
                (fun f => f.follower = a && f.following = b) = true := by
              rw [List.any_append]
              simp
            have hdel : deleteFirst
                (fun f => f.follower = a && f.following = b)
                (follows ++ [(⟨a, b, now⟩ : FollowDoc)]) = follows :=
              deleteFirst_append_singleton _ _ _ hall (by simp)
            have hunf : unfollowHandler (some ⟨uid, a⟩)
                (follows ++ [(⟨a, b, now⟩ : FollowDoc)]) b =
                (⟨200, true, "You have unfollowed " ++ b ++ "."⟩, follows) := by
              simp only [unfollowHandler]
              rw [if_neg hb0, hany2]
              simp [hdel]
            rw [hstore, hunf]
            refine ⟨rfl, ?_⟩
            intro f hf hcontra
            have := hall f hf
            simp [hcontra.1, hcontra.2] at this
        · simp [followHandler, hb0, hba,
            eq_false_of_ne_true hexist] at hsucc
  · by_cases ha : a = ""
    · simp [followHandler, ha]
    · simp [followHandler, ha]

/-- C5 witness: with bob registered and a single carol→bob edge, a
duplicate follow by carol conflicts; unfollowing dave (no edge) is
not-found; follow-then-unfollow of bob by dave leaves no edge; and a
self-follow by carol is rejected. -/
theorem C5_follow_laws_witness :
    followHandler (some ⟨3, "carol"⟩)
        [⟨1, "bob", "b@x.com", "+97112345678", ⟨2000, 1, 1⟩, "h", 0, none⟩]
        [⟨"carol", "bob", 4⟩] 9 "bob" =
      (⟨400, false, "You are already following bob."⟩, [⟨"carol", "bob", 4⟩]) ∧
    unfollowHandler (some ⟨3, "carol"⟩) [⟨"carol", "bob", 4⟩] "dave" =
      (⟨404, false, "You are not following dave."⟩, [⟨"carol", "bob", 4⟩]) ∧
    (∀ f ∈ (unfollowHandler (some ⟨4, "dave"⟩)
        ((followHandler (some ⟨4, "dave"⟩)
          [⟨1, "bob", "b@x.com", "+97112345678", ⟨2000, 1, 1⟩, "h", 0, none⟩]
          [] 9 "bob").2) "bob").2,
      ¬(f.follower = "dave" ∧ f.following = "bob")) ∧
    (followHandler (some ⟨3, "carol"⟩)
        [⟨1, "bob", "b@x.com", "+97112345678", ⟨2000, 1, 1⟩, "h", 0, none⟩]
        [⟨"carol", "bob", 4⟩] 9 "carol").1.success = false := by
  refine ⟨?_, ?_, ?_, ?_⟩
  · exact (C5_follow_laws 3 9 "carol" "bob"
      [⟨1, "bob", "b@x.com", "+97112345678", ⟨2000, 1, 1⟩, "h", 0, none⟩]
      [⟨"carol", "bob", 4⟩]).1 (by decide) (by decide) (by decide) (by decide)
  · exact (C5_follow_laws 3 9 "carol" "dave"
      [⟨1, "bob", "b@x.com", "+97112345678", ⟨2000, 1, 1⟩, "h", 0, none⟩]
      [⟨"carol", "bob", 4⟩]).2.1 (by decide) (by decide)
  · exact ((C5_follow_laws 4 9 "dave" "bob"
      [⟨1, "bob", "b@x.com", "+97112345678", ⟨2000, 1, 1⟩, "h", 0, none⟩]
      []).2.2.1 (by decide)).2
  · exact (C5_follow_laws 3 9 "carol" "bob"
      [⟨1, "bob", "b@x.com", "+97112345678", ⟨2000, 1, 1⟩, "h", 0, none⟩]
      [⟨"carol", "bob", 4⟩]).2.2.2

/-- C7 counterexample: the field validations of POST /users run before
the duplicate check, so a registration request whose username duplicates
the stored user alice but whose password is too short fails with the
password-length validation error — not with the conflict error the claim
promises for every duplicate request. -/
theorem C7_counterexample :
    ((⟨1, "alice", "alice@x.com", "+97112345678", ⟨2000, 1, 1⟩, "h", 0, none⟩ :
        UserDoc).username = "alice") ∧
    (register ⟨2026, 10, 11⟩ 0 2
      [⟨1, "alice", "alice@x.com", "+97112345678", ⟨2000, 1, 1⟩, "h", 0, none⟩]
      ⟨"alice", "new@x.com", "+97112345678", ⟨2000, 1, 1⟩, "abc"⟩).1 =
      ⟨400, false, "Password must be at least 6 characters long."⟩ ∧
    (register ⟨2026, 10, 11⟩ 0 2
      [⟨1, "alice", "alice@x.com", "+97112345678", ⟨2000, 1, 1⟩, "h", 0, none⟩]
      ⟨"alice", "new@x.com", "+97112345678", ⟨2000, 1, 1⟩, "abc"⟩).1 ≠
      ⟨400, false, "Username or email already exists."⟩ := by
  decide

/-- C7 (amended): every registration request whose username or email
duplicates a stored user fails and inserts no record — so username and
email uniqueness is preserved — and when such a request additionally
passes the field validations it fails precisely with the 400 conflict
error `Username or email already exists.`. -/
theorem C7_register_duplicate (today : Date) (now newId : Nat)
    (users : List UserDoc) (r : RegisterRequest)
    (hdup : ∃ u ∈ users, u.username = r.username ∨ u.email = r.email) :
    ((register today now newId users r).2 = users ∧
     (register today now newId users r).1.success = false) ∧
    (r.username ≠ "" → r.username.toList.any isWsChar = false →
     isValidEmail r.email = true → isValidPhoneNumber r.phone = true →
     6 ≤ r.password.length → 10 ≤ calculateAge r.dob today →
     (register today now newId users r).1 =
       ⟨400, false, "Username or email already exists."⟩) := by
  rcases hdup with ⟨u, humem, hor⟩
  have hdupb : users.any (fun x => x.username = r.username || x.email = r.email) = true := by
    refine List.any_eq_true.mpr ⟨u, humem, ?_⟩
    rcases hor with h | h <;> simp [h]
  constructor
  · simp only [register]
    split_ifs with h1 h2 h3 h4 h5 h6
    all_goals exact ⟨rfl, rfl⟩
  · intro hun hws hem hph hlen hage
    have hemne : r.email ≠ "" := by
      intro h
      rw [h] at hem
      exact absurd hem (by decide)
    have hphne : r.phone ≠ "" := by
      intro h
      rw [h] at hph
      exact absurd hph (by decide)
    have hpwne : r.password ≠ "" := by
      intro h
      rw [h] at hlen
      exact absurd hlen (by decide)
    simp only [register]
    rw [if_neg (by simp [hun, hemne, hphne, hpwne]),
      if_neg (by rw [hws]; decide), if_neg (by simp [hem]), if_neg (by simp [hph]),
      if_neg (by omega), if_neg (by omega), if_pos hdupb]

/-- C7 witness: a duplicate-username registration that passes the field
validations is stopped by the conflict error and leaves the store
unchanged. -/
theorem C7_register_duplicate_witness :
    ((register ⟨2026, 10, 11⟩ 0 2
        [⟨1, "alice", "alice@x.com", "+97112345678", ⟨2000, 1, 1⟩, "h", 0, none⟩]
        ⟨"alice", "a2@x.com", "+97112345678", ⟨2000, 1, 1⟩, "secret1"⟩).2 =
      [⟨1, "alice", "alice@x.com", "+97112345678", ⟨2000, 1, 1⟩, "h", 0, none⟩] ∧
     (register ⟨2026, 10, 11⟩ 0 2
        [⟨1, "alice", "alice@x.com", "+97112345678", ⟨2000, 1, 1⟩, "h", 0, none⟩]
        ⟨"alice", "a2@x.com", "+97112345678", ⟨2000, 1, 1⟩, "secret1"⟩).1.success = false) ∧
    (register ⟨2026, 10, 11⟩ 0 2
        [⟨1, "alice", "alice@x.com", "+97112345678", ⟨2000, 1, 1⟩, "h", 0, none⟩]
        ⟨"alice", "a2@x.com", "+97112345678", ⟨2000, 1, 1⟩, "secret1"⟩).1 =
      ⟨400, false, "Username or email already exists."⟩ := by
  have h := C7_register_duplicate ⟨2026, 10, 11⟩ 0 2
    [⟨1, "alice", "alice@x.com", "+97112345678", ⟨2000, 1, 1⟩, "h", 0, none⟩]
    ⟨"alice", "a2@x.com", "+97112345678", ⟨2000, 1, 1⟩, "secret1"⟩ (by decide)
  exact ⟨h.1, h.2 (by decide) (by decide) (by decide) (by decide)
    (by decide) (by decide)⟩

/-- C8: a date of birth exactly 10 years before today yields age 10 and
passes the age check, while a date of birth 10 years minus one day before
today (the next calendar day after the boundary) yields age 9, fails the
check, and makes an otherwise-valid registration fail with the underage
validation error without inserting a record. -/
theorem C8_age_boundary (today : Date) (hy : 10 ≤ today.year)
    (hv : today.valid = true)
    (hb : (Date.mk (today.year - 10) today.month today.day).valid = true) :
    calculateAge ⟨today.year - 10, today.month, today.day⟩ today = 10 ∧
    ¬(calculateAge ⟨today.year - 10, today.month, today.day⟩ today < 10) ∧
    calculateAge (nextDay ⟨today.year - 10, today.month, today.day⟩) today = 9 ∧
    (∀ (now newId : Nat) (users : List UserDoc) (r : RegisterRequest),
      r.dob = nextDay ⟨today.year - 10, today.month, today.day⟩ →
      r.username ≠ "" → r.username.toList.any isWsChar = false →
      isValidEmail r.email = true → isValidPhoneNumber r.phone = true →
      6 ≤ r.password.length →
      (register today now newId users r).1 =
        ⟨400, false, "You must be at least 10 years old to register."⟩ ∧
      (register today now newId users r).2 = users) := by
  rcases today with ⟨y, m, d⟩
  simp only at hy
  have h1 : calculateAge ⟨y - 10, m, d⟩ ⟨y, m, d⟩ = 10 := by
    simp only [calculateAge]
    rw [if_neg (by omega)]
    omega
  have h3 : calculateAge (nextDay ⟨y - 10, m, d⟩) ⟨y, m, d⟩ = 9 := by
    simp only [nextDay]
    split_ifs with hd hm
    · simp only [calculateAge]
      rw [if_pos (by omega)]
      omega
    · simp only [calculateAge]
      rw [if_pos (by omega)]
      omega
    · simp only [calculateAge]
      rw [if_neg (by omega)]
      omega
  refine ⟨h1, ?_, h3, ?_⟩
  · show ¬(calculateAge ⟨y - 10, m, d⟩ ⟨y, m, d⟩ < 10)
    rw [h1]
    decide
  intro now newId users r hdob hun hws hem hph hlen
  have hemne : r.email ≠ "" := by
    intro h
    rw [h] at hem
    exact absurd hem (by decide)
  have hphne : r.phone ≠ "" := by
    intro h
    rw [h] at hph
    exact absurd hph (by decide)
  have hpwne : r.password ≠ "" := by
    intro h
    rw [h] at hlen
    exact absurd hlen (by decide)
  have hage : calculateAge r.dob ⟨y, m, d⟩ < 10 := by
    rw [hdob, h3]
    omega
  simp only [register]
  rw [if_neg (by simp [hun, hemne, hphne, hpwne]),
    if_neg (by rw [hws]; decide), if_neg (by simp [hem]), if_neg (by simp [hph]),
    if_neg (by omega), if_pos hage]
  exact ⟨rfl, rfl⟩

/-- C8 witness: with today 2026-10-11, a birth date of 2016-10-11 gives
age 10 and passes, 2016-10-12 gives age 9, and an otherwise-valid
registration with that date of birth is rejected as underage. -/
theorem C8_age_boundary_witness :
    calculateAge ⟨2016, 10, 11⟩ ⟨2026, 10, 11⟩ = 10 ∧
    calculateAge (nextDay ⟨2016, 10, 11⟩) ⟨2026, 10, 11⟩ = 9 ∧
    (register ⟨2026, 10, 11⟩ 0 3 []
      ⟨"erin", "e@x.com", "+97112345678", nextDay ⟨2016, 10, 11⟩, "secret1"⟩).1 =
      ⟨400, false, "You must be at least 10 years old to register."⟩ := by
  have h := C8_age_boundary ⟨2026, 10, 11⟩ (by decide) (by decide) (by decide)
  exact ⟨h.1, h.2.2.1, (h.2.2.2 0 3 []
    ⟨"erin", "e@x.com", "+97112345678", nextDay ⟨2016, 10, 11⟩, "secret1"⟩
    rfl (by decide) (by decide) (by decide) (by decide) (by decide)).1⟩

end CodeLogs
